import Mathlib

/-!
Shallow embedding of the printer-object core of the pappl printer
application framework (source file `printer.c`): the printer data model,
`papplPrinterCreate`, `papplPrinterDelete`, `papplSystemFindPrinter`, and
`_papplGetRand`, together with theorems checking the specification's
claims about them.

Machine integers: the C `int` fields are modelled as `Int` (ids) or `Nat`
(sizes) with explicit clamping where the source clamps; no arithmetic in
the claims approaches 2^31 except where the source itself compares against
`INT_MAX`, which is modelled explicitly.
-/

namespace Pappl

/-- Largest representable 31-bit signed value, `INT_MAX` in the source. -/
def INT_MAX : Nat := 2 ^ 31 - 1

/-- A typed IPP attribute value as produced by the `ippAdd*` calls used in
`papplPrinterCreate` (`ippAddString`, `ippAddStrings`, `ippAddInteger`,
`ippAddIntegers`, `ippAddRange`, `ippAddBoolean`).  Tags are not modelled:
no claim depends on them. -/
inductive IppValue where
  | str (s : String)
  | strs (l : List String)
  | int (n : Nat)
  | ints (l : List Nat)
  | range (lo hi : Nat)
  | bool (b : Bool)
deriving DecidableEq, Repr

/-- One named attribute in a printer's attribute store. -/
structure IppAttr where
  name : String
  value : IppValue
deriving DecidableEq, Repr

/-- Lookup of an attribute by name, first match in insertion order
(`ippFindAttribute`). -/
def ippFindAttribute (attrs : List IppAttr) (name : String) : Option IppValue :=
  (attrs.find? fun a => a.name == name).map IppAttr.value

/-- The printer object `pappl_printer_t`, restricted to the fields the
claims touch.  The rwlock, timestamps, state fields and the three job
arrays are elided: no claim about this file mentions them, and time and
locking are outside the shallow embedding. -/
structure Printer where
  printer_id : Int
  name : String
  dns_sd_name : String
  resource : String
  resourcelen : Nat
  device_uri : String
  driver_name : String
  attrs : List IppAttr
  next_job_id : Int
deriving DecidableEq, Repr

/-- The system object `pappl_system_t`, restricted to the fields
`papplPrinterCreate` / `papplPrinterDelete` / `papplSystemFindPrinter`
read or write. -/
structure System where
  printers : List Printer
  next_printer_id : Int
  default_printer_id : Int
  subtypes : Bool
deriving DecidableEq, Repr

/-- Spool-capacity clamp of `papplPrinterCreate` lines 223-228: when
`statfs` fails the advertised maximum is `INT_MAX`; otherwise
`spoolsize = (double)f_bsize * f_blocks / 1024` is compared against
`INT_MAX` and truncated to `int`.  The input is the byte capacity
`f_bsize * f_blocks` (`none` = the `statfs` call failed).  `double`
arithmetic is exact on the values at which the comparison can change
(below 2^53), so the real-number comparison `bytes / 1024 > INT_MAX` is
`bytes > 1024 * INT_MAX` over naturals, and the `(int)` cast is floor
division. -/
def kSupported : Option Nat → Nat
  | none => INT_MAX
  | some bytes => if 1024 * INT_MAX < bytes then INT_MAX else bytes / 1024

/-- Document-format list assembly of `papplPrinterCreate` lines 233-246:
the generic binary format, then the driver's native format when present
and distinct from the generic one, then the build-conditional image
formats (`HAVE_LIBJPEG`, `HAVE_LIBPNG`), then the two raster-interchange
formats. -/
def assembleFormats (driver_format : Option String)
    (have_libjpeg have_libpng : Bool) : List String :=
  ["application/octet-stream"]
    ++ (match driver_format with
        | some f => if f ≠ "application/octet-stream" then [f] else []
        | none => [])
    ++ (if have_libjpeg then ["image/jpeg"] else [])
    ++ (if have_libpng then ["image/png"] else [])
    ++ ["image/pwg-raster", "image/urf"]

/-- The attribute store populated by `papplPrinterCreate` lines 269-402,
one entry per `ippAdd*` call, in source order.  Enum codes
(`IPP_OP_*`, `IPP_ORIENT_*`, `IPP_QUALITY_*`) are the IANA-assigned
values from the CUPS header the source includes. -/
def buildPrinterAttrs (printer_name uuid : String)
    (formats : List String) (k_supported : Nat) : List IppAttr :=
  [ ⟨"charset-configured", .str "utf-8"⟩,
    ⟨"charset-supported", .strs ["us-ascii", "utf-8"]⟩,
    ⟨"compression-supported", .strs ["deflate", "gzip", "none"]⟩,
    ⟨"copies-default", .int 1⟩,
    ⟨"copies-supported", .range 1 999⟩,
    ⟨"document-format-default", .str "application/octet-stream"⟩,
    ⟨"document-format-supported", .strs formats⟩,
    ⟨"generated-natural-language-supported", .str "en"⟩,
    ⟨"identify-actions-default", .str "sound"⟩,
    ⟨"identify-actions-supported", .strs ["display", "sound"]⟩,
    ⟨"ipp-features-supported", .strs ["ipp-everywhere"]⟩,
    ⟨"ipp-versions-supported", .strs ["1.1", "2.0"]⟩,
    ⟨"job-creation-attributes-supported", .strs
      ["copies", "document-format", "document-name", "ipp-attribute-fidelity",
       "job-name", "job-priority", "media", "media-col",
       "multiple-document-handling", "orientation-requested",
       "print-color-mode", "print-content-optimize", "print-darkness",
       "print-quality", "print-speed", "printer-resolution"]⟩,
    ⟨"job-ids-supported", .bool true⟩,
    ⟨"job-k-octets-supported", .range 0 k_supported⟩,
    ⟨"job-priority-default", .int 50⟩,
    ⟨"job-priority-supported", .int 1⟩,
    ⟨"job-sheets-default", .str "none"⟩,
    ⟨"job-sheets-supported", .str "none"⟩,
    ⟨"media-col-supported", .strs
      ["media-bottom-margin", "media-left-margin", "media-right-margin",
       "media-size", "media-size-name", "media-source", "media-top-margin",
       "media-top-offset", "media-tracking", "media-type"]⟩,
    ⟨"multiple-document-handling-supported", .strs
      ["separate-documents-uncollated-copies",
       "separate-documents-collated-copies"]⟩,
    ⟨"multiple-document-jobs-supported", .bool false⟩,
    ⟨"multiple-operation-time-out", .int 60⟩,
    ⟨"multiple-operation-time-out-action", .str "abort-job"⟩,
    ⟨"natural-language-configured", .str "en"⟩,
    ⟨"operations-supported", .ints [2, 4, 5, 6, 8, 9, 10, 11, 19, 57, 59, 60]⟩,
    ⟨"orientation-requested-default", .int 7⟩,
    ⟨"orientation-requested-supported", .ints [3, 4, 5, 6, 7]⟩,
    ⟨"pdl-override-supported", .str "attempted"⟩,
    ⟨"print-color-mode-default", .str "monochrome"⟩,
    ⟨"print-color-mode-supported", .strs ["bi-level", "monochrome"]⟩,
    ⟨"print-content-optimize-default", .str "auto"⟩,
    ⟨"print-content-optimize-supported", .strs
      ["auto", "graphic", "photo", "text-and-graphic", "text"]⟩,
    ⟨"print-quality-default", .int 4⟩,
    ⟨"print-quality-supported", .ints [3, 4, 5]⟩,
    ⟨"printer-get-attributes-supported", .str "document-format"⟩,
    ⟨"printer-info", .str printer_name⟩,
    ⟨"printer-kind", .strs ["labels", "receipt"]⟩,
    ⟨"printer-name", .str printer_name⟩,
    ⟨"printer-settable-attributes", .strs
      ["copies-default", "document-format-default", "label-mode-configured",
       "label-tear-off-configured", "media-col-default", "media-col-ready",
       "media-default", "media-ready", "multiple-document-handling-default",
       "orientation-requested-default", "print-color-mode-default",
       "print-content-optimize-default", "print-darkness-default",
       "print-quality-default", "print-speed-default",
       "printer-darkness-configured", "printer-geo-location",
       "printer-location", "printer-organization",
       "printer-organizational-unit", "printer-resolution-default"]⟩,
    ⟨"printer-strings-languages-supported", .strs ["de", "en", "es", "fr", "it"]⟩,
    ⟨"printer-uuid", .str uuid⟩,
    ⟨"uri-authentication-supported", .strs ["none", "basic"]⟩,
    ⟨"uri-security-supported", .strs ["none", "tls"]⟩,
    ⟨"which-jobs-supported", .strs ["completed", "not-completed", "all"]⟩ ]

/-- Environment inputs of one `papplPrinterCreate` call that come from
outside the function: whether `calloc` succeeds, the `statfs` byte
capacity of the spool directory (`none` = call failed), the build's image
libraries, the value of `printer->driver_data.format` at line 236, and
the generated UUID.

`driver_format`: in this source snapshot the `lprintCreateDriver` call at
line 231 is commented out, so the field holds whatever the (absent)
driver subsystem put there; per the spec it is the driver-negotiated
native document format.  Modelled from the spec: the driver subsystem is
not part of the given source, so the field's value is an input here.

`uuid`: Modelled from the spec: `_papplSystemMakeUUID` is not part of
the given source; per the spec it derives a UUID deterministically from
system identity, name and a zero salt, supplied here as an input. -/
structure CreateEnv where
  alloc_ok : Bool
  statfs_bytes : Option Nat
  have_libjpeg : Bool
  have_libpng : Bool
  driver_format : Option String
  uuid : String
deriving DecidableEq, Repr

/-- The outcome of `papplPrinterCreate`: the returned pointer, the
updated system, and whether the DNS-SD registration action was
performed (line 423-424). -/
structure CreateResult where
  printer : Option Printer
  system : System
  dnssd_registered : Bool
deriving DecidableEq, Repr

/-- `strcmp(a, b) < 0`: lexicographic comparison, character by
character, shorter string first on a tie (the NUL terminator compares
below every character). -/
def strcmpLt : List Char → List Char → Bool
  | [], [] => false
  | [], _ :: _ => true
  | _ :: _, [] => false
  | a :: as, b :: bs =>
      if a.toNat < b.toNat then true
      else if b.toNat < a.toNat then false
      else strcmpLt as bs

/-- `cupsArrayAdd` on an array created with comparator
`compare_printers` (strcmp on names): insert keeping the list sorted by
name, after any equal names. -/
def insertSorted (p : Printer) : List Printer → List Printer
  | [] => [p]
  | q :: qs =>
      if strcmpLt p.name.data q.name.data then p :: q :: qs
      else q :: insertSorted p qs

/-- `cupsArrayRemove` on the printer array: remove the (first) element
comparing equal under `compare_printers`, i.e. with the same name. -/
def removeByName (n : String) : List Printer → List Printer
  | [] => []
  | q :: qs => if q.name == n then qs else q :: removeByName n qs

/-- The printer object initialization of `papplPrinterCreate` lines
215-402: build the resource path `/ipp/print/<name>` (the 1024-byte
`snprintf` buffer never truncates the names any claim uses), compute the
spool clamp and format list, fill the printer fields, and populate the
attribute store.  The id assignment of lines 407-410: the explicit id
when nonzero, else the system's `next_printer_id`. -/
def newPrinter (env : CreateEnv) (system : System)
    (printer_id : Int) (printer_name driver_name device_uri : String) : Printer :=
  let resource := "/ipp/print/" ++ printer_name
  let k_supported := kSupported env.statfs_bytes
  let formats := assembleFormats env.driver_format env.have_libjpeg env.have_libpng
  { printer_id := if printer_id ≠ 0 then printer_id else system.next_printer_id
    name := printer_name
    dns_sd_name := printer_name
    resource := resource
    resourcelen := resource.length
    device_uri := device_uri
    driver_name := driver_name
    attrs := buildPrinterAttrs printer_name env.uuid formats k_supported
    next_job_id := 1 }

/-- `papplPrinterCreate` lines 208-427: on allocation failure return
NULL with no side effects; otherwise initialize the printer, and under
the system lock assign `printer_id` (`next_printer_id` is
post-incremented only on the id-0 path), insert into the collection, and
set the default printer if unset; finally register with DNS-SD when
`system->subtypes` is set. -/
def papplPrinterCreate (env : CreateEnv) (system : System)
    (printer_id : Int) (printer_name driver_name device_uri : String) :
    CreateResult :=
  if env.alloc_ok = false then
    { printer := none, system := system, dnssd_registered := false }
  else
    let printer := newPrinter env system printer_id printer_name driver_name device_uri
    { printer := some printer
      system :=
        { system with
            printers := insertSorted printer system.printers
            next_printer_id :=
              if printer_id ≠ 0 then system.next_printer_id
              else system.next_printer_id + 1
            default_printer_id :=
              if system.default_printer_id = 0 then printer.printer_id
              else system.default_printer_id }
      dnssd_registered := system.subtypes }

/-- `papplPrinterDelete` lines 435-442: remove the printer from the
system's collection under the exclusive lock; nothing else on the system
is touched. -/
def papplPrinterDelete (system : System) (printer : Printer) : System :=
  { system with printers := removeByName printer.name system.printers }

/-- First character is an ASCII digit (`isdigit(resource[11] & 255)`;
character 11 of a string of length 11 is the terminating NUL, hence the
empty case is `false`). -/
def headIsDigit : List Char → Bool
  | [] => false
  | c :: _ => c.isDigit

/-- The default-substitution test of `papplSystemFindPrinter` line 462:
the path equals `/ipp/print`, or starts with the 11 characters
`/ipp/print/` (`strncmp(resource, "/ipp/print/", 11)`) with a digit
right after. -/
def substCheck (r : String) : Bool :=
  r == "/ipp/print"
    || (List.isPrefixOf "/ipp/print/".data r.data && headIsDigit (r.data.drop 11))

/-- The per-printer resource test of line 474:
`strncmp(printer->resource, resource, printer->resourcelen)` succeeds and
the path character right after the matched prefix is the terminating NUL
or a path separator (`resourcelen` is always the length of the printer's
resource, cached at creation). -/
def resourceBoundaryMatch : List Char → List Char → Bool
  | [], [] => true
  | [], c :: _ => c == '/'
  | _ :: _, [] => false
  | p :: ps, c :: cs => p == c && resourceBoundaryMatch ps cs

/-- The scan loop of `papplSystemFindPrinter` lines 470-478: first
printer, in collection order, matching by resource (when a path is still
set) or by id. -/
def findScan (printers : List Printer) (resource : Option String)
    (printer_id : Int) : Option Printer :=
  printers.find? fun p =>
    (match resource with
     | some r => resourceBoundaryMatch p.resource.data r.data
     | none => false)
      || p.printer_id == printer_id

/-- `papplSystemFindPrinter` lines 449-484: when the path addresses the
service root (or a numeric sub-path), substitute the default printer's
id and clear the path, then scan. -/
def papplSystemFindPrinter (system : System) (resource : Option String)
    (printer_id : Int) : Option Printer :=
  match resource with
  | some r =>
      if substCheck r then findScan system.printers none system.default_printer_id
      else findScan system.printers (some r) printer_id
  | none => findScan system.printers none printer_id

/-- Modelled from the spec: `papplSystemCreate` is not part of the given
source; per the spec's data model, a fresh system has an empty printer
collection, `next_printer_id` starting at 1, and no default printer
(id 0). -/
def initialSystem : System :=
  { printers := [], next_printer_id := 1, default_printer_id := 0, subtypes := false }

/-- One registry operation: a `papplPrinterCreate` call (with its
environment inputs) or a `papplPrinterDelete` of a printer object. -/
inductive Op where
  | create (env : CreateEnv) (printer_id : Int)
      (printer_name driver_name device_uri : String)
  | delete (printer : Printer)

/-- Apply one operation to the system. -/
def applyOp (s : System) : Op → System
  | .create env pid n dn du => (papplPrinterCreate env s pid n dn du).system
  | .delete p => papplPrinterDelete s p

/-- Run a sequence of operations from a starting system. -/
def runOps (s : System) : List Op → System
  | [] => s
  | op :: ops => runOps (applyOp s op) ops

/-- The `printer_id` values assigned by the successful create calls of a
sequence of operations, in call order. -/
def createdIds (s : System) : List Op → List Int
  | [] => []
  | .create env pid n dn du :: ops =>
      let r := papplPrinterCreate env s pid n dn du
      (match r.printer with
       | some p => [p.printer_id]
       | none => []) ++ createdIds r.system ops
  | .delete p :: ops => createdIds (papplPrinterDelete s p) ops

/-- Every create call in the sequence passes 0 as the explicit id. -/
def allDefaultId : List Op → Bool
  | [] => true
  | .create _ pid _ _ _ :: ops => pid == 0 && allDefaultId ops
  | .delete _ :: ops => allDefaultId ops

/-- Number of create calls whose allocation succeeds. -/
def okCreateCount : List Op → Nat
  | [] => 0
  | .create env _ _ _ _ :: ops =>
      (if env.alloc_ok then 1 else 0) + okCreateCount ops
  | .delete _ :: ops => okCreateCount ops

/-- The consecutive ids `start, start+1, …, start+n-1`. -/
def idRange (start : Int) : Nat → List Int
  | 0 => []
  | n + 1 => start :: idRange (start + 1) n

/-- Build configuration of `_papplGetRand` lines 494-525: which entropy
tier the preprocessor selected.  `HAVE_ARC4RANDOM` compiles only tier 1;
otherwise `HAVE_GETRANDOM` or `HAVE_GNUTLS_RND` compile tier 2 or 3 with
the pseudo-random fallback after them; with none of the three, only the
fallback is compiled. -/
inductive RandConfig where
  | arc4randomCfg
  | getrandomCfg
  | gnutlsCfg
  | fallbackOnlyCfg
deriving DecidableEq, Repr

/-- External inputs of one `_papplGetRand` call: whether the platform
source call succeeded (`getrandom` returned the full length /
`gnutls_rnd` returned 0), the 32-bit value it produced, the current
wall-clock time (`time(NULL)` for `srandom`), and the value `random()`
would produce (a long in `[0, 2^31)`). -/
structure RandCall where
  sys_ok : Bool
  sys_val : Nat
  now : Nat
  prng_val : Nat
deriving DecidableEq, Repr

/-- Mutable state of `_papplGetRand`: the static `first_time` flag of
line 516, and the seed last passed to `srandom` (none before the first
seeding). -/
structure RandState where
  first_time : Bool
  seed : Option Nat
deriving DecidableEq, Repr

/-- Process start: `first_time = 1`, generator unseeded. -/
def initRandState : RandState := { first_time := true, seed := none }

/-- Does this call reach the pseudo-random fallback code?  Never under
`HAVE_ARC4RANDOM`; under `HAVE_GETRANDOM` / `HAVE_GNUTLS_RND` exactly
when the platform call fails; always when no platform source is
compiled. -/
def reachesFallback (cfg : RandConfig) (c : RandCall) : Bool :=
  match cfg with
  | .arc4randomCfg => false
  | .getrandomCfg => !c.sys_ok
  | .gnutlsCfg => !c.sys_ok
  | .fallbackOnlyCfg => true

/-- The fallback's one-time seeding, lines 518-522. -/
def fallbackSeed (st : RandState) (c : RandCall) : RandState :=
  if st.first_time then { first_time := false, seed := some c.now } else st

/-- `_papplGetRand` lines 491-526 for one call: the returned `unsigned`
(32-bit) value and the updated static state.  `random()` returns a value
in `[0, 2^31)`, cast to `unsigned`. -/
def papplGetRand (cfg : RandConfig) (st : RandState) (c : RandCall) :
    Nat × RandState :=
  match cfg with
  | .arc4randomCfg => (c.sys_val % 2 ^ 32, st)
  | .getrandomCfg =>
      if c.sys_ok then (c.sys_val % 2 ^ 32, st)
      else (c.prng_val % 2 ^ 31, fallbackSeed st c)
  | .gnutlsCfg =>
      if c.sys_ok then (c.sys_val % 2 ^ 32, st)
      else (c.prng_val % 2 ^ 31, fallbackSeed st c)
  | .fallbackOnlyCfg => (c.prng_val % 2 ^ 31, fallbackSeed st c)

/-- Run a sequence of `_papplGetRand` calls, collecting the returned
values and the final static state. -/
def runRand (cfg : RandConfig) (st : RandState) :
    List RandCall → List Nat × RandState
  | [] => ([], st)
  | c :: cs =>
      let r := papplGetRand cfg st c
      let rest := runRand cfg r.2 cs
      (r.1 :: rest.1, rest.2)

/-- Reachability invariant of a system: the id counter is positive and
every registered printer has a nonzero id. -/
def goodSystem (s : System) : Prop :=
  1 ≤ s.next_printer_id ∧ ∀ p ∈ s.printers, p.printer_id ≠ 0

/-- A create environment with successful allocation, failed `statfs`,
no image libraries and no driver-native format. -/
def env0 : CreateEnv :=
  { alloc_ok := true, statfs_bytes := none, have_libjpeg := false,
    have_libpng := false, driver_format := none, uuid := "urn:uuid:t" }

/-- The same environment with the allocation failing. -/
def envFail : CreateEnv := { env0 with alloc_ok := false }

/-- An environment whose driver-native format is "image/pwg-raster" —
distinct from the generic binary format, but equal to one of the
raster-interchange formats appended unconditionally at line 245. -/
def envPwg : CreateEnv := { env0 with driver_format := some "image/pwg-raster" }

/-- An environment whose driver-native format is "image/vnd.acme-raster"
with both optional image libraries compiled in. -/
def envAcme : CreateEnv :=
  { env0 with driver_format := some "image/vnd.acme-raster",
              have_libjpeg := true, have_libpng := true }

/-- A default-less system whose first created printer is "foo". -/
def sFoo : System :=
  (papplPrinterCreate env0 initialSystem 0 "foo" "dn" "du").system

/-- A system holding only a printer named "a" (resource `/ipp/print/a`). -/
def sA : System :=
  (papplPrinterCreate env0 initialSystem 0 "a" "dn" "du").system

/-- `sA` with a second printer named "b" added. -/
def sAB : System := (papplPrinterCreate env0 sA 0 "b" "dn" "du").system

/-- Placeholder printer used only as the `getD` default below. -/
def dummyPrinter : Printer :=
  { printer_id := 0, name := "", dns_sd_name := "", resource := "",
    resourcelen := 0, device_uri := "", driver_name := "", attrs := [],
    next_job_id := 1 }

/-- The printer object created first into `sA` (name "a", id 1). -/
def pA : Printer :=
  ((papplPrinterCreate env0 initialSystem 0 "a" "dn" "du").printer).getD dummyPrinter

/-- A system already holding a printer registered with explicit id 5. -/
def sDup : System :=
  (papplPrinterCreate env0 initialSystem 5 "a" "dn" "du").system

/-- A two-call create sequence with id 0. -/
def wOps : List Op :=
  [.create env0 0 "a" "dn" "du", .create env0 0 "b" "dn" "du"]

/-- `sA` with a second printer named "ab" (resource `/ipp/print/ab`). -/
def sAab : System := (papplPrinterCreate env0 sA 0 "ab" "dn" "du").system

/-- The printer object created second into `sAab` (name "ab", id 2). -/
def pAab : Printer :=
  ((papplPrinterCreate env0 sA 0 "ab" "dn" "du").printer).getD dummyPrinter

theorem papplPrinterCreate_fail (env : CreateEnv) (s : System) (pid : Int)
    (n dn du : String) (h : env.alloc_ok = false) :
    papplPrinterCreate env s pid n dn du =
      { printer := none, system := s, dnssd_registered := false } := by
  simp [papplPrinterCreate, h]

theorem papplPrinterCreate_ok (env : CreateEnv) (s : System) (pid : Int)
    (n dn du : String) (h : env.alloc_ok = true) :
    papplPrinterCreate env s pid n dn du =
      { printer := some (newPrinter env s pid n dn du)
        system :=
          { s with
              printers := insertSorted (newPrinter env s pid n dn du) s.printers
              next_printer_id :=
                if pid ≠ 0 then s.next_printer_id else s.next_printer_id + 1
              default_printer_id :=
                if s.default_printer_id = 0
                then (newPrinter env s pid n dn du).printer_id
                else s.default_printer_id }
        dnssd_registered := s.subtypes } := by
  simp [papplPrinterCreate, h]

theorem newPrinter_printer_id (env : CreateEnv) (s : System) (pid : Int)
    (n dn du : String) :
    (newPrinter env s pid n dn du).printer_id =
      if pid ≠ 0 then pid else s.next_printer_id := rfl

theorem newPrinter_name (env : CreateEnv) (s : System) (pid : Int)
    (n dn du : String) : (newPrinter env s pid n dn du).name = n := rfl

theorem newPrinter_resource (env : CreateEnv) (s : System) (pid : Int)
    (n dn du : String) :
    (newPrinter env s pid n dn du).resource = "/ipp/print/" ++ n := rfl

theorem newPrinter_attrs (env : CreateEnv) (s : System) (pid : Int)
    (n dn du : String) :
    (newPrinter env s pid n dn du).attrs =
      buildPrinterAttrs n env.uuid
        (assembleFormats env.driver_format env.have_libjpeg env.have_libpng)
        (kSupported env.statfs_bytes) := rfl

theorem isPrefixOf_append (l t : List Char) : List.isPrefixOf l (l ++ t) = true := by
  induction l with
  | nil => simp [List.isPrefixOf]
  | cons a as ih => simp [List.isPrefixOf, ih]

theorem mem_insertSorted (q p : Printer) :
    ∀ l : List Printer, q ∈ insertSorted p l ↔ q = p ∨ q ∈ l := by
  intro l
  induction l with
  | nil => simp [insertSorted]
  | cons a as ih =>
    by_cases hlt : strcmpLt p.name.data a.name.data
    · simp [insertSorted, hlt]
    · simp [insertSorted, hlt, ih]
      tauto

theorem mem_removeByName (q : Printer) (n : String) :
    ∀ l : List Printer, q ∈ removeByName n l → q ∈ l := by
  intro l
  induction l with
  | nil => simp [removeByName]
  | cons a as ih =>
    by_cases ha : a.name == n
    · simp only [removeByName, ha, if_pos]
      intro h
      exact List.mem_cons_of_mem a h
    · simp only [removeByName, ha, if_neg, Bool.false_eq_true, not_false_iff]
      intro h
      rcases List.mem_cons.mp h with rfl | h
      · exact List.mem_cons_self _ _
      · exact List.mem_cons_of_mem a (ih h)

theorem resourceBoundaryMatch_iff (p : List Char) :
    ∀ r : List Char, resourceBoundaryMatch p r = true ↔
      r = p ∨ ∃ rest, r = p ++ '/' :: rest := by
  induction p with
  | nil =>
    intro r
    cases r with
    | nil => simp [resourceBoundaryMatch]
    | cons c cs =>
      simp only [resourceBoundaryMatch, beq_iff_eq, List.nil_append]
      constructor
      · intro h
        exact Or.inr ⟨cs, by rw [h]⟩
      · rintro (h | ⟨rest, h⟩)
        · exact absurd h (List.cons_ne_nil c cs)
        · exact (List.cons.injEq .. ▸ h).1
  | cons a as ih =>
    intro r
    cases r with
    | nil =>
      simp [resourceBoundaryMatch]
    | cons c cs =>
      simp only [resourceBoundaryMatch, Bool.and_eq_true, beq_iff_eq, ih,
        List.cons_append, List.cons.injEq]
      constructor
      · rintro ⟨rfl, h | ⟨rest, rfl⟩⟩
        · exact Or.inl ⟨rfl, h⟩
        · exact Or.inr ⟨rest, rfl, rfl⟩
      · rintro (⟨rfl, rfl⟩ | ⟨rest, rfl, rfl⟩)
        · exact ⟨rfl, Or.inl rfl⟩
        · exact ⟨rfl, Or.inr ⟨rest, rfl⟩⟩

theorem idRange_mem_le : ∀ (n : Nat) (start x : Int), x ∈ idRange start n → start ≤ x := by
  intro n
  induction n with
  | zero => intro start x hx; simp [idRange] at hx
  | succ k ih =>
    intro start x hx
    rcases List.mem_cons.mp hx with rfl | hx
    · exact le_refl x
    · have := ih (start + 1) x hx
      omega

theorem idRange_pairwise : ∀ (n : Nat) (start : Int),
    List.Pairwise (· < ·) (idRange start n) := by
  intro n
  induction n with
  | zero => intro start; simp [idRange]
  | succ k ih =>
    intro start
    refine List.pairwise_cons.mpr ⟨fun x hx => ?_, ih (start + 1)⟩
    have := idRange_mem_le k (start + 1) x hx
    omega

theorem createdIds_eq : ∀ (ops : List Op) (s : System), allDefaultId ops = true →
    createdIds s ops = idRange s.next_printer_id (okCreateCount ops) := by
  intro ops
  induction ops with
  | nil => intro s _; rfl
  | cons op ops ih =>
    intro s h
    cases op with
    | create env pid n dn du =>
      rw [allDefaultId, Bool.and_eq_true, beq_iff_eq] at h
      obtain ⟨rfl, h2⟩ := h
      cases halloc : env.alloc_ok with
      | false =>
        rw [createdIds, papplPrinterCreate_fail env s 0 n dn du halloc]
        rw [ih s h2]
        simp [okCreateCount, halloc]
      | true =>
        rw [createdIds, papplPrinterCreate_ok env s 0 n dn du halloc]
        simp only [List.singleton_append]
        rw [ih _ h2]
        simp only [newPrinter_printer_id, ne_eq, not_true_eq_false, if_false,
          ite_self, reduceIte, okCreateCount, halloc, if_true,
          Nat.add_comm 1 (okCreateCount ops)]
        rfl
    | delete p =>
      rw [allDefaultId] at h
      rw [createdIds, ih _ h]
      rfl

theorem find?_none_of_all {α : Type} (p : α → Bool) (l : List α)
    (h : ∀ x ∈ l, p x = false) : l.find? p = none :=
  List.find?_eq_none.mpr fun x hx => by simp [h x hx]

theorem applyOp_good (op : Op) (s : System) (hs : goodSystem s) :
    goodSystem (applyOp s op) := by
  obtain ⟨hnext, hids⟩ := hs
  cases op with
  | create env pid n dn du =>
    cases halloc : env.alloc_ok with
    | false =>
      rw [applyOp, papplPrinterCreate_fail env s pid n dn du halloc]
      exact ⟨hnext, hids⟩
    | true =>
      rw [applyOp, papplPrinterCreate_ok env s pid n dn du halloc]
      refine ⟨?_, fun q hq => ?_⟩
      · dsimp only
        by_cases hpid : pid ≠ 0
        · rw [if_pos hpid]; exact hnext
        · rw [if_neg hpid]; omega
      · dsimp only at hq
        rcases (mem_insertSorted q _ _).mp hq with rfl | hq
        · rw [newPrinter_printer_id]
          by_cases hpid : pid ≠ 0
          · rw [if_pos hpid]; exact hpid
          · rw [if_neg hpid]; omega
        · exact hids q hq
  | delete p =>
    exact ⟨hnext, fun q hq => hids q (mem_removeByName q p.name _ hq)⟩

theorem runOps_good : ∀ (ops : List Op) (s : System), goodSystem s →
    goodSystem (runOps s ops) := by
  intro ops
  induction ops with
  | nil => intro s hs; exact hs
  | cons op ops ih => intro s hs; exact ih _ (applyOp_good op s hs)

theorem papplGetRand_fst_lt (cfg : RandConfig) (st : RandState) (c : RandCall) :
    (papplGetRand cfg st c).1 < 2 ^ 32 := by
  have h32 : 0 < 2 ^ 32 := by norm_num
  have h31 : (2 : Nat) ^ 31 ≤ 2 ^ 32 := by norm_num
  cases cfg with
  | arc4randomCfg => exact Nat.mod_lt _ h32
  | getrandomCfg =>
    by_cases h : c.sys_ok <;> simp only [papplGetRand, h, if_pos, if_neg,
      Bool.false_eq_true, not_false_iff, if_true, if_false]
    · exact Nat.mod_lt _ h32
    · exact lt_of_lt_of_le (Nat.mod_lt _ (by norm_num)) h31
  | gnutlsCfg =>
    by_cases h : c.sys_ok <;> simp only [papplGetRand, h, if_pos, if_neg,
      Bool.false_eq_true, not_false_iff, if_true, if_false]
    · exact Nat.mod_lt _ h32
    · exact lt_of_lt_of_le (Nat.mod_lt _ (by norm_num)) h31
  | fallbackOnlyCfg =>
    exact lt_of_lt_of_le (Nat.mod_lt _ (by norm_num)) h31

theorem papplGetRand_snd_eq (cfg : RandConfig) (st : RandState) (c : RandCall) :
    (papplGetRand cfg st c).2 =
      if reachesFallback cfg c then fallbackSeed st c else st := by
  cases cfg with
  | arc4randomCfg => rfl
  | getrandomCfg =>
    by_cases h : c.sys_ok <;> simp [papplGetRand, reachesFallback, h]
  | gnutlsCfg =>
    by_cases h : c.sys_ok <;> simp [papplGetRand, reachesFallback, h]
  | fallbackOnlyCfg => rfl

theorem runRand_length (cfg : RandConfig) :
    ∀ (cs : List RandCall) (st : RandState),
      ((runRand cfg st cs).1).length = cs.length := by
  intro cs
  induction cs with
  | nil => intro st; rfl
  | cons c cs ih => intro st; simp [runRand, ih]

theorem runRand_vals_lt (cfg : RandConfig) :
    ∀ (cs : List RandCall) (st : RandState) (v : Nat),
      v ∈ (runRand cfg st cs).1 → v < 2 ^ 32 := by
  intro cs
  induction cs with
  | nil => intro st v hv; simp [runRand] at hv
  | cons c cs ih =>
    intro st v hv
    rcases List.mem_cons.mp hv with rfl | hv
    · exact papplGetRand_fst_lt cfg st c
    · exact ih _ v hv

theorem runRand_state_frozen (cfg : RandConfig) :
    ∀ (cs : List RandCall) (st : RandState), st.first_time = false →
      (runRand cfg st cs).2 = st := by
  intro cs
  induction cs with
  | nil => intro st _; rfl
  | cons c cs ih =>
    intro st hst
    have hstep : (papplGetRand cfg st c).2 = st := by
      rw [papplGetRand_snd_eq]
      by_cases h : reachesFallback cfg c
      · simp [h, fallbackSeed, hst]
      · simp [h]
    simp only [runRand]
    rw [hstep, ih st hst]

theorem runRand_seed (cfg : RandConfig) :
    ∀ cs : List RandCall,
      ((runRand cfg initRandState cs).2).seed
          = (cs.find? (reachesFallback cfg)).map RandCall.now
        ∧ ((runRand cfg initRandState cs).2).first_time
          = !(cs.any (reachesFallback cfg)) := by
  intro cs
  induction cs with
  | nil => exact ⟨rfl, rfl⟩
  | cons c cs ih =>
    by_cases hr : reachesFallback cfg c
    · have hstep : (papplGetRand cfg initRandState c).2 =
          { first_time := false, seed := some c.now } := by
        rw [papplGetRand_snd_eq, if_pos hr]
        rfl
      have hfrozen := runRand_state_frozen cfg cs
        { first_time := false, seed := some c.now } rfl
      constructor
      · rw [List.find?_cons_of_pos _ hr]
        simp only [runRand, hstep, hfrozen, Option.map_some']
      · simp only [runRand, hstep, hfrozen, List.any_cons, hr, Bool.true_or,
          Bool.not_true]
    · have hr' : reachesFallback cfg c = false := by simpa using hr
      have hstep : (papplGetRand cfg initRandState c).2 = initRandState := by
        rw [papplGetRand_snd_eq, if_neg hr]
      constructor
      · rw [List.find?_cons_of_neg _ hr]
        simp only [runRand, hstep, ih.1]
      · simp only [runRand, hstep, ih.2, List.any_cons, hr', Bool.false_or]

theorem ippFind_formats (pn uuid : String) (formats : List String) (k : Nat) :
    ippFindAttribute (buildPrinterAttrs pn uuid formats k)
      "document-format-supported" = some (.strs formats) := rfl

theorem ippFind_k_octets (pn uuid : String) (formats : List String) (k : Nat) :
    ippFindAttribute (buildPrinterAttrs pn uuid formats k)
      "job-k-octets-supported" = some (.range 0 k) := rfl

/-- Claim C7: when the initial allocation of the Printer value fails,
`papplPrinterCreate` returns none and has no side effects: the printer
collection, `next_printer_id` and `default_printer_id` are unchanged (the
whole system is returned as it was), and no registration or discovery
action is performed. -/
theorem claim_C7_alloc_failure_no_side_effects (env : CreateEnv) (s : System)
    (pid : Int) (n dn du : String) (halloc : env.alloc_ok = false) :
    papplPrinterCreate env s pid n dn du =
      { printer := none, system := s, dnssd_registered := false } :=
  papplPrinterCreate_fail env s pid n dn du halloc

/-- Witness for C7 at a concrete failing environment. -/
theorem claim_C7_witness :
    envFail.alloc_ok = false
    ∧ papplPrinterCreate envFail initialSystem 0 "a" "dn" "du" =
        { printer := none, system := initialSystem, dnssd_registered := false } :=
  ⟨rfl, claim_C7_alloc_failure_no_side_effects envFail initialSystem 0 "a" "dn" "du" rfl⟩

/-- Counterexample to claim C8 as stated: creating with the nonzero
explicit id 5 on a fresh system leaves `next_printer_id` at 1 — it is
not incremented (the increment happens only on the id-0 path of line
410). -/
theorem claim_C8_counterexample_next_id_unincremented :
    (papplPrinterCreate env0 initialSystem 5 "a" "dn" "du").system.next_printer_id = 1
    ∧ (papplPrinterCreate env0 initialSystem 5 "a" "dn" "du").system.next_printer_id ≠ 2 := by
  constructor
  · rfl
  · decide

/-- Claim C8 (amended): when `papplPrinterCreate` is called with a
nonzero explicit printer id, `next_printer_id` is left unchanged (it is
incremented only on the id-0 path), and the explicit-id path performs no
check for collision with an already-registered printer id — the
creation succeeds unconditionally, the new printer carries the explicit
id, and every previously registered printer (including one with the
same id) remains in the collection. -/
theorem claim_C8_amended_explicit_id (env : CreateEnv) (s : System) (pid : Int)
    (n dn du : String) (halloc : env.alloc_ok = true) (hpid : pid ≠ 0) :
    ∃ pr, (papplPrinterCreate env s pid n dn du).printer = some pr
      ∧ pr.printer_id = pid
      ∧ pr ∈ (papplPrinterCreate env s pid n dn du).system.printers
      ∧ (papplPrinterCreate env s pid n dn du).system.next_printer_id
          = s.next_printer_id
      ∧ ∀ q ∈ s.printers, q ∈ (papplPrinterCreate env s pid n dn du).system.printers := by
  rw [papplPrinterCreate_ok env s pid n dn du halloc]
  refine ⟨newPrinter env s pid n dn du, rfl, ?_, ?_, ?_, ?_⟩
  · rw [newPrinter_printer_id, if_pos hpid]
  · dsimp only
    exact (mem_insertSorted _ _ _).mpr (Or.inl rfl)
  · dsimp only
    rw [if_pos hpid]
  · intro q hq
    dsimp only
    exact (mem_insertSorted _ _ _).mpr (Or.inr hq)

/-- Witness for the amended C8: registering id 5 into a system already
holding a printer with id 5 succeeds and leaves `next_printer_id`
unchanged. -/
theorem claim_C8_witness :
    env0.alloc_ok = true ∧ (5 : Int) ≠ 0
    ∧ (∃ pr, (papplPrinterCreate env0 sDup 5 "b" "dn" "du").printer = some pr
        ∧ pr.printer_id = 5
        ∧ pr ∈ (papplPrinterCreate env0 sDup 5 "b" "dn" "du").system.printers
        ∧ (papplPrinterCreate env0 sDup 5 "b" "dn" "du").system.next_printer_id
            = sDup.next_printer_id
        ∧ ∀ q ∈ sDup.printers,
            q ∈ (papplPrinterCreate env0 sDup 5 "b" "dn" "du").system.printers) :=
  ⟨rfl, by decide, claim_C8_amended_explicit_id env0 sDup 5 "b" "dn" "du" rfl (by decide)⟩

theorem assembleFormats_eq (f : String) (j p : Bool)
    (hf : f ≠ "application/octet-stream") :
    assembleFormats (some f) j p =
      "application/octet-stream" :: f ::
        ((if j then ["image/jpeg"] else []) ++ (if p then ["image/png"] else [])
          ++ ["image/pwg-raster", "image/urf"]) := by
  simp [assembleFormats, hf]

theorem assembleFormats_nodup (f : String) (j p : Bool)
    (h0 : f ≠ "application/octet-stream")
    (h1 : j = true → f ≠ "image/jpeg")
    (h2 : p = true → f ≠ "image/png")
    (h3 : f ≠ "image/pwg-raster")
    (h4 : f ≠ "image/urf") :
    (assembleFormats (some f) j p).Nodup := by
  rw [assembleFormats_eq f j p h0]
  have hrest : ((if j then ["image/jpeg"] else [])
      ++ (if p then ["image/png"] else [])
      ++ ["image/pwg-raster", "image/urf"]).Nodup := by
    cases j <;> cases p <;> decide
  have hg : ("application/octet-stream" : String) ∉
      ((if j then ["image/jpeg"] else []) ++ (if p then ["image/png"] else [])
        ++ ["image/pwg-raster", "image/urf"]) := by
    cases j <;> cases p <;> decide
  have hfr : f ∉ ((if j then ["image/jpeg"] else [])
      ++ (if p then ["image/png"] else []) ++ ["image/pwg-raster", "image/urf"]) := by
    intro hm
    rcases List.mem_append.mp hm with hm12 | hm3
    · rcases List.mem_append.mp hm12 with hj' | hp'
      · cases j with
        | true => exact h1 rfl (by simpa using hj')
        | false => simp at hj'
      · cases p with
        | true => exact h2 rfl (by simpa using hp')
        | false => simp at hp'
    · rcases List.mem_cons.mp hm3 with h | h
      · exact h3 h
      · rcases List.mem_cons.mp h with h' | h'
        · exact h4 h'
        · exact absurd h' (List.not_mem_nil f)
  refine List.nodup_cons.mpr ⟨?_, List.nodup_cons.mpr ⟨hfr, hrest⟩⟩
  intro hm
  rcases List.mem_cons.mp hm with h | h
  · exact h0 h.symm
  · exact hg h

/-- Counterexample to claim C5 as stated: the claim quantifies over
every driver-native format distinct from the generic binary format, but
with driver-native format "image/pwg-raster" — distinct from
"application/octet-stream", so inside the quantified class — the
assembled `document-format-supported` list contains "image/pwg-raster"
twice (line 236 dedups only against the generic format, line 245 adds
"image/pwg-raster" unconditionally), so the list has a duplicate. -/
theorem claim_C5_counterexample_duplicate_pwg_raster :
    ("image/pwg-raster" : String) ≠ "application/octet-stream"
    ∧ (∃ pr, (papplPrinterCreate envPwg initialSystem 0 "x" "dn" "du").printer
          = some pr
        ∧ ippFindAttribute pr.attrs "document-format-supported"
            = some (.strs (assembleFormats (some "image/pwg-raster") false false)))
    ∧ (assembleFormats (some "image/pwg-raster") false false).count
        "image/pwg-raster" = 2
    ∧ ¬ (assembleFormats (some "image/pwg-raster") false false).Nodup := by
  refine ⟨by decide,
    ⟨newPrinter envPwg initialSystem 0 "x" "dn" "du", rfl, rfl⟩,
    by decide, by decide⟩

/-- Claim C5 (amended): for every printer created with a driver-native
format distinct from "application/octet-stream", the
`document-format-supported` list assembled by `papplPrinterCreate`
contains both the generic binary format and the driver-native format
and contains the two raster-interchange formats "image/pwg-raster" and
"image/urf"; it has no duplicates provided the driver-native format is
also distinct from every other entry of the assembled list (the build's
optional image formats and the two raster-interchange formats), as
"image/vnd.acme-raster" is. -/
theorem claim_C5_amended_document_formats (env : CreateEnv) (s : System)
    (n dn du f : String) (halloc : env.alloc_ok = true)
    (hfmt : env.driver_format = some f)
    (hf : f ≠ "application/octet-stream") :
    (∃ pr, (papplPrinterCreate env s 0 n dn du).printer = some pr
      ∧ ippFindAttribute pr.attrs "document-format-supported"
          = some (.strs (assembleFormats (some f)
              env.have_libjpeg env.have_libpng)))
    ∧ "application/octet-stream"
        ∈ assembleFormats (some f) env.have_libjpeg env.have_libpng
    ∧ f ∈ assembleFormats (some f) env.have_libjpeg env.have_libpng
    ∧ "image/pwg-raster"
        ∈ assembleFormats (some f) env.have_libjpeg env.have_libpng
    ∧ "image/urf" ∈ assembleFormats (some f) env.have_libjpeg env.have_libpng
    ∧ ((env.have_libjpeg = true → f ≠ "image/jpeg") →
       (env.have_libpng = true → f ≠ "image/png") →
       f ≠ "image/pwg-raster" → f ≠ "image/urf" →
       (assembleFormats (some f) env.have_libjpeg env.have_libpng).Nodup) := by
  refine ⟨⟨newPrinter env s 0 n dn du, ?_, ?_⟩, ?_, ?_, ?_, ?_, ?_⟩
  · rw [papplPrinterCreate_ok env s 0 n dn du halloc]
  · rw [newPrinter_attrs, hfmt, ippFind_formats]
  · rw [assembleFormats_eq f _ _ hf]
    exact List.mem_cons_self _ _
  · rw [assembleFormats_eq f _ _ hf]
    exact List.mem_cons_of_mem _ (List.mem_cons_self _ _)
  · rw [assembleFormats_eq f _ _ hf]
    refine List.mem_cons_of_mem _ (List.mem_cons_of_mem _ ?_)
    exact List.mem_append_right _ (List.mem_cons_self _ _)
  · rw [assembleFormats_eq f _ _ hf]
    refine List.mem_cons_of_mem _ (List.mem_cons_of_mem _ ?_)
    exact List.mem_append_right _
      (List.mem_cons_of_mem _ (List.mem_cons_self _ _))
  · intro h1 h2 h3 h4
    exact assembleFormats_nodup f _ _ hf h1 h2 h3 h4

/-- Witness for the amended C5 at the "image/vnd.acme-raster" format
with both image libraries enabled, the no-duplicates side conditions
discharged concretely. -/
theorem claim_C5_witness :
    envAcme.alloc_ok = true
    ∧ envAcme.driver_format = some "image/vnd.acme-raster"
    ∧ ("image/vnd.acme-raster" : String) ≠ "application/octet-stream"
    ∧ (∃ pr, (papplPrinterCreate envAcme initialSystem 0 "x" "dn" "du").printer
          = some pr
        ∧ ippFindAttribute pr.attrs "document-format-supported"
            = some (.strs (assembleFormats (some "image/vnd.acme-raster")
                true true)))
    ∧ "application/octet-stream"
        ∈ assembleFormats (some "image/vnd.acme-raster") true true
    ∧ "image/vnd.acme-raster"
        ∈ assembleFormats (some "image/vnd.acme-raster") true true
    ∧ "image/pwg-raster"
        ∈ assembleFormats (some "image/vnd.acme-raster") true true
    ∧ "image/urf" ∈ assembleFormats (some "image/vnd.acme-raster") true true
    ∧ (assembleFormats (some "image/vnd.acme-raster") true true).Nodup := by
  have h := claim_C5_amended_document_formats envAcme initialSystem "x" "dn" "du"
    "image/vnd.acme-raster" rfl rfl (by decide)
  exact ⟨rfl, rfl, by decide, h.1, h.2.1, h.2.2.1, h.2.2.2.1, h.2.2.2.2.1,
    h.2.2.2.2.2 (fun _ => by decide) (fun _ => by decide) (by decide) (by decide)⟩

/-- Claim C6: the advertised maximum job size equals `INT_MAX` when the
spool filesystem query fails or when the capacity in kilobytes is at
least 2^31, and equals the computed kilobyte value otherwise (500,000
KiB yields exactly 500000); the `job-k-octets-supported` attribute is
the range from 0 to that value. -/
theorem claim_C6_spool_capacity_clamp (env : CreateEnv) (s : System)
    (n dn du : String) (halloc : env.alloc_ok = true) :
    (∃ pr, (papplPrinterCreate env s 0 n dn du).printer = some pr
      ∧ ippFindAttribute pr.attrs "job-k-octets-supported"
          = some (.range 0 (kSupported env.statfs_bytes)))
    ∧ kSupported none = INT_MAX
    ∧ (∀ b : Nat, 2 ^ 31 ≤ b / 1024 → kSupported (some b) = INT_MAX)
    ∧ (∀ b : Nat, b / 1024 < 2 ^ 31 → kSupported (some b) = b / 1024)
    ∧ kSupported (some (500000 * 1024)) = 500000 := by
  have hIM : INT_MAX = 2147483647 := by norm_num [INT_MAX]
  have h31 : (2 : Nat) ^ 31 = 2147483648 := by norm_num
  refine ⟨?_, rfl, ?_, ?_, ?_⟩
  · refine ⟨newPrinter env s 0 n dn du, ?_, ?_⟩
    · rw [papplPrinterCreate_ok env s 0 n dn du halloc]
    · rw [newPrinter_attrs, ippFind_k_octets]
  · intro b hb
    have h1 : 2 ^ 31 * 1024 ≤ b := (Nat.le_div_iff_mul_le (by norm_num)).mp hb
    have h2 : 1024 * INT_MAX < b := by
      rw [hIM]; rw [h31] at h1; omega
    simp only [kSupported, if_pos h2]
  · intro b hb
    by_cases hc : 1024 * INT_MAX < b
    · have h1 : INT_MAX ≤ b / 1024 :=
        (Nat.le_div_iff_mul_le (by norm_num)).mpr (by rw [hIM]; rw [hIM] at hc; omega)
      have h2 : b / 1024 ≤ INT_MAX := by
        rw [hIM]; rw [h31] at hb; omega
      have he : b / 1024 = INT_MAX := le_antisymm h2 h1
      simp only [kSupported, if_pos hc, he]
    · simp only [kSupported, if_neg hc]
  · decide

/-- Witness for C6 at a concrete environment whose `statfs` reports
500,000 KiB of capacity. -/
theorem claim_C6_witness :
    (∃ pr, (papplPrinterCreate
        { alloc_ok := true, statfs_bytes := some (500000 * 1024),
          have_libjpeg := false, have_libpng := false, driver_format := none,
          uuid := "urn:uuid:t" } initialSystem 0 "x" "dn" "du").printer = some pr
      ∧ ippFindAttribute pr.attrs "job-k-octets-supported"
          = some (.range 0 (kSupported (some (500000 * 1024)))))
    ∧ kSupported (some (500000 * 1024)) = 500000 :=
  ⟨(claim_C6_spool_capacity_clamp
      { alloc_ok := true, statfs_bytes := some (500000 * 1024),
        have_libjpeg := false, have_libpng := false, driver_format := none,
        uuid := "urn:uuid:t" } initialSystem "x" "dn" "du" rfl).1,
   (claim_C6_spool_capacity_clamp
      { alloc_ok := true, statfs_bytes := some (500000 * 1024),
        have_libjpeg := false, have_libpng := false, driver_format := none,
        uuid := "urn:uuid:t" } initialSystem "x" "dn" "du" rfl).2.2.2.2⟩

/-- Claim C2: for every resource path equal to the service root print
path `/ipp/print`, or equal to `/ipp/print/` followed by a purely
numeric sub-path, `papplSystemFindPrinter` substitutes the configured
default printer's id and clears the path before scanning; in
particular, on a default-less system whose first created printer is
"foo", a find with path `/ipp/print` and id 0 returns "foo"'s
printer. -/
theorem claim_C2_root_path_default_substitution (s : System) (pid : Int)
    (r : String)
    (h : r = "/ipp/print"
      ∨ ∃ ds : List Char, ds ≠ [] ∧ (∀ c ∈ ds, c.isDigit = true)
          ∧ r.data = "/ipp/print/".data ++ ds) :
    papplSystemFindPrinter s (some r) pid
        = findScan s.printers none s.default_printer_id
    ∧ (papplSystemFindPrinter sFoo (some "/ipp/print") 0).map Printer.name
        = some "foo" := by
  have hs : substCheck r = true := by
    rcases h with rfl | ⟨ds, hne, hdig, hdata⟩
    · decide
    · have h11 : ("/ipp/print/".data).length = 11 := by decide
      rw [substCheck, hdata, isPrefixOf_append, ← h11, List.drop_left]
      obtain ⟨c, ds', rfl⟩ := List.exists_cons_of_ne_nil hne
      have hc : c.isDigit = true := hdig c (List.mem_cons_self c ds')
      simp [headIsDigit, hc]
  refine ⟨?_, rfl⟩
  simp only [papplSystemFindPrinter, hs, if_true]

/-- Witness for C2 at the root print path on the "foo" system. -/
theorem claim_C2_witness :
    papplSystemFindPrinter sFoo (some "/ipp/print") 0
        = findScan sFoo.printers none sFoo.default_printer_id
    ∧ (papplSystemFindPrinter sFoo (some "/ipp/print") 0).map Printer.name
        = some "foo" :=
  claim_C2_root_path_default_substitution sFoo 0 "/ipp/print" (Or.inl rfl)

/-- Claim C3: `papplSystemFindPrinter` never matches a printer whose
resource is a mere textual prefix of the queried path — any printer it
returns that was not matched by id (and with no default substitution)
has its resource as a prefix of the path followed by end-of-string or a
path separator; in particular a printer with resource `/ipp/print/a` is
never returned for a lookup of `/ipp/print/ab` (on a system holding
only that printer, the lookup returns none). -/
theorem claim_C3_boundary_rule_no_textual_prefix_match (s : System)
    (r : String) (pid : Int) (p : Printer)
    (hfind : papplSystemFindPrinter s (some r) pid = some p)
    (hsub : substCheck r = false)
    (hpid : p.printer_id ≠ pid) :
    (r.data = p.resource.data
      ∨ ∃ rest, r.data = p.resource.data ++ '/' :: rest)
    ∧ papplSystemFindPrinter sA (some "/ipp/print/ab") 0 = none := by
  refine ⟨?_, rfl⟩
  rw [papplSystemFindPrinter, if_neg (by simp [hsub]), findScan] at hfind
  have hpred := List.find?_some hfind
  have hpred' : resourceBoundaryMatch p.resource.data r.data = true
      ∨ p.printer_id = pid := by simpa using hpred
  rcases hpred' with hrbm | hid
  · exact (resourceBoundaryMatch_iff p.resource.data r.data).mp hrbm
  · exact absurd hid hpid

/-- Witness for C3: on the system holding printers "a" and "ab", the
lookup of `/ipp/print/ab` returns the "ab" printer, whose resource is a
boundary-correct match. -/
theorem claim_C3_witness :
    papplSystemFindPrinter sAab (some "/ipp/print/ab") 0 = some pAab
    ∧ substCheck "/ipp/print/ab" = false
    ∧ pAab.printer_id ≠ 0
    ∧ (("/ipp/print/ab".data = pAab.resource.data
        ∨ ∃ rest, "/ipp/print/ab".data = pAab.resource.data ++ '/' :: rest)
      ∧ papplSystemFindPrinter sA (some "/ipp/print/ab") 0 = none) :=
  ⟨rfl, rfl, by decide,
   claim_C3_boundary_rule_no_textual_prefix_match sAab "/ipp/print/ab" 0 pAab
     rfl rfl (by decide)⟩

/-- Claim C4: after `papplPrinterDelete`, a find by the deleted
printer's id or by its resource path returns none (given that no other
registered printer shares that id, has id 0, or boundary-matches that
resource, and the resource does not trigger default substitution),
while `default_printer_id` and `next_printer_id` are left unchanged by
the deletion. -/
theorem claim_C4_delete_find_none_frame (s : System) (p : Printer)
    (_hmem : p ∈ s.printers)
    (hid : ∀ q ∈ (papplPrinterDelete s p).printers, q.printer_id ≠ p.printer_id)
    (hid0 : ∀ q ∈ (papplPrinterDelete s p).printers, q.printer_id ≠ 0)
    (hsub : substCheck p.resource = false)
    (hres : ∀ q ∈ (papplPrinterDelete s p).printers,
      resourceBoundaryMatch q.resource.data p.resource.data = false) :
    papplSystemFindPrinter (papplPrinterDelete s p) none p.printer_id = none
    ∧ papplSystemFindPrinter (papplPrinterDelete s p) (some p.resource) 0 = none
    ∧ (papplPrinterDelete s p).default_printer_id = s.default_printer_id
    ∧ (papplPrinterDelete s p).next_printer_id = s.next_printer_id := by
  refine ⟨?_, ?_, rfl, rfl⟩
  · rw [papplSystemFindPrinter, findScan]
    apply find?_none_of_all
    intro q hq
    simp [hid q hq]
  · rw [papplSystemFindPrinter, if_neg (by simp [hsub]), findScan]
    apply find?_none_of_all
    intro q hq
    simp [hres q hq, hid0 q hq]

/-- Witness for C4: deleting printer "a" from the system holding "a"
and "b", then looking it up by id 1 and by resource `/ipp/print/a`. -/
theorem claim_C4_witness :
    pA ∈ sAB.printers
    ∧ (papplSystemFindPrinter (papplPrinterDelete sAB pA) none pA.printer_id = none
      ∧ papplSystemFindPrinter (papplPrinterDelete sAB pA) (some pA.resource) 0 = none
      ∧ (papplPrinterDelete sAB pA).default_printer_id = sAB.default_printer_id
      ∧ (papplPrinterDelete sAB pA).next_printer_id = sAB.next_printer_id) :=
  ⟨by decide,
   claim_C4_delete_find_none_frame sAB pA (by decide) (by decide) (by decide)
     (by decide) (by decide)⟩

/-- Claim C1: over any sequence of operations whose create calls all
pass 0 as the explicit printer id, the assigned `printer_id` values are
exactly 1, 2, 3, … in order — hence strictly increasing, unique, and
starting at 1 (`next_printer_id` is post-incremented on each such
allocation and ids are never reused within the process lifetime, even
across deletions). -/
theorem claim_C1_default_ids_strictly_increasing (ops : List Op)
    (h : allDefaultId ops = true) :
    createdIds initialSystem ops = idRange 1 (okCreateCount ops)
    ∧ List.Pairwise (· < ·) (createdIds initialSystem ops)
    ∧ (createdIds initialSystem ops).Nodup
    ∧ (createdIds initialSystem ops ≠ [] →
        (createdIds initialSystem ops).head? = some 1) := by
  have he : createdIds initialSystem ops = idRange 1 (okCreateCount ops) :=
    createdIds_eq ops initialSystem h
  have hp : List.Pairwise (· < ·) (createdIds initialSystem ops) := by
    rw [he]; exact idRange_pairwise _ _
  refine ⟨he, hp, hp.imp (fun hab => ne_of_lt hab), ?_⟩
  intro hne
  rw [he] at hne ⊢
  cases hk : okCreateCount ops with
  | zero => rw [hk] at hne; exact absurd rfl hne
  | succ k => rfl

/-- Witness for C1: two id-0 creates produce the ids 1 and 2. -/
theorem claim_C1_witness :
    allDefaultId wOps = true
    ∧ createdIds initialSystem wOps = idRange 1 (okCreateCount wOps) :=
  ⟨by decide, (claim_C1_default_ids_strictly_increasing wOps (by decide)).1⟩

/-- Claim C9: `_papplGetRand` is total — under every build
configuration and every sequence of calls it produces one value per
call, each a 32-bit value; and the pseudo-random fallback seeds the
generator from wall-clock time exactly once per process, on the first
call that reaches it (the final seed is the `time(NULL)` of the first
fallback-reaching call, and the one-time flag is cleared exactly when
some call reached the fallback). -/
theorem claim_C9_getrand_total_seeded_once (cfg : RandConfig)
    (cs : List RandCall) :
    ((runRand cfg initRandState cs).1).length = cs.length
    ∧ (∀ v ∈ (runRand cfg initRandState cs).1, v < 2 ^ 32)
    ∧ ((runRand cfg initRandState cs).2).seed
        = (cs.find? (reachesFallback cfg)).map RandCall.now
    ∧ ((runRand cfg initRandState cs).2).first_time
        = !(cs.any (reachesFallback cfg)) :=
  ⟨runRand_length cfg cs initRandState,
   fun v hv => runRand_vals_lt cfg cs initRandState v hv,
   (runRand_seed cfg cs).1, (runRand_seed cfg cs).2⟩

/-- Claim C10: in every reachable system state (any sequence of creates
and deletes from a fresh system), a find with a null resource path and
printer id 0 returns none — the null path skips the default
substitution, and no registered printer ever has printer id 0. -/
theorem claim_C10_find_null_zero_none (ops : List Op) :
    papplSystemFindPrinter (runOps initialSystem ops) none 0 = none
    ∧ ∀ p ∈ (runOps initialSystem ops).printers, p.printer_id ≠ 0 := by
  have hg : goodSystem (runOps initialSystem ops) :=
    runOps_good ops initialSystem
      ⟨le_refl 1, fun p hp => absurd hp (List.not_mem_nil p)⟩
  refine ⟨?_, hg.2⟩
  rw [papplSystemFindPrinter, findScan]
  apply find?_none_of_all
  intro q hq
  simp [hg.2 q hq]

end Pappl
